import Mathlib

/-!
Shallow embedding of the OrA governance kernel (ora/core/authority.py,
ora/core/constitution.py, ora/core/kernel.py, ora/security/gates.py,
ora/audit/immutable_log.py, ora/audit/incidents.py) and proofs about it.

Modelling conventions:
* SHA-256 and HMAC-SHA256 are modelled as a free constructor on their
  inputs (collision-freeness abstraction): two signatures are equal
  exactly when key material and signed content coincide.
* Wall-clock inputs (timestamps, the hour window of the signing key) are
  explicit parameters.
* The sqlite store is a list of rows in insertion (autoincrement id)
  order; a fallible insert is an explicit boolean outcome.
* Python dictionaries with string keys are association lists in
  insertion order.
-/

namespace Ora

/-! ## String helpers (Python `in`, `lower`, `split`, `strip`) -/

/-- Does `hay` start with `needle` (character lists)? -/
def leadsWith : List Char → List Char → Bool
  | _, [] => true
  | [], _ :: _ => false
  | c :: cs, d :: ds => c == d && leadsWith cs ds

/-- Does `hay` contain `needle` as a contiguous run (character lists)? -/
def containsChars : List Char → List Char → Bool
  | [], needle => needle.isEmpty
  | hay@(_ :: t), needle => leadsWith hay needle || containsChars t needle

/-- Python `needle in hay` on strings. -/
def strContains (hay needle : String) : Bool :=
  containsChars hay.data needle.data

/-- Python `str.lower()` (ASCII case folding suffices for the source patterns). -/
def lowerStr (s : String) : String :=
  String.mk (s.data.map Char.toLower)

/-- Python `str.strip()`. -/
def stripStr (s : String) : String :=
  String.mk (((s.data.dropWhile Char.isWhitespace).reverse.dropWhile Char.isWhitespace).reverse)

/-- The suffix of `hay` after its first occurrence of `sep`, if any. -/
def afterFirstOcc? : List Char → List Char → Option (List Char)
  | [], sep => if sep.isEmpty then some [] else none
  | hay@(_ :: t), sep =>
    if leadsWith hay sep then some (hay.drop sep.length) else afterFirstOcc? t sep

/-- Fuelled iteration of `afterFirstOcc?`; with enough fuel this yields the
suffix after the last occurrence of `sep` (for nonempty `sep`). -/
def afterLastOccFuel : Nat → List Char → List Char → List Char
  | 0, hay, _ => hay
  | n + 1, hay, sep =>
    match afterFirstOcc? hay sep with
    | none => hay
    | some rest => afterLastOccFuel n rest sep

/-- Python `s.split(sep)[-1]` for nonempty `sep`. -/
def pySplitLast (s sep : String) : String :=
  String.mk (afterLastOccFuel (s.data.length + 1) s.data sep.data)

/-- Python `s.split("_")[0]` (first underscore-separated token). -/
def firstUnderscoreToken (s : String) : String :=
  String.mk (s.data.takeWhile (fun c => c ≠ '_'))

/-- Python string truthiness defaulting: `s or d` for strings. -/
def orDefault (s d : String) : String :=
  if s = "" then d else s

/-- Minimal rendering of `json.dumps` on a flat dict of strings
(`\x7b`/`\x7d` are the literal braces). Key escaping is not modelled;
the governed scenarios contain no quotes or backslashes in keys/values. -/
def paramsJson (ps : List (String × String)) : String :=
  "\x7b" ++
    String.intercalate ", " (ps.map (fun kv => "\"" ++ kv.1 ++ "\": \"" ++ kv.2 ++ "\"")) ++
  "\x7d"

/-! ## Authority model — ora/core/authority.py -/

/-- `AuthorityLevel` (authority.py lines 32-44). -/
inductive AuthorityLevel where
  | READ_ONLY
  | SAFE_COMPUTE
  | INFO_RETRIEVAL
  | FILE_READ
  | FILE_WRITE
  | SYSTEM_EXEC
deriving DecidableEq, Repr, Fintype

/-- The `.value` of each enum member. -/
def AuthorityLevel.value : AuthorityLevel → Nat
  | .READ_ONLY => 0
  | .SAFE_COMPUTE => 1
  | .INFO_RETRIEVAL => 2
  | .FILE_READ => 3
  | .FILE_WRITE => 4
  | .SYSTEM_EXEC => 5

/-- `name_display` property (authority.py lines 46-56). -/
def AuthorityLevel.nameDisplay : AuthorityLevel → String
  | .READ_ONLY => "A0: READ_ONLY"
  | .SAFE_COMPUTE => "A1: SAFE_COMPUTE"
  | .INFO_RETRIEVAL => "A2: INFO_RETRIEVAL"
  | .FILE_READ => "A3: FILE_READ"
  | .FILE_WRITE => "A4: FILE_WRITE"
  | .SYSTEM_EXEC => "A5: SYSTEM_EXEC"

/-- Python `str(level)` for the enum. -/
def AuthorityLevel.pyStr : AuthorityLevel → String
  | .READ_ONLY => "AuthorityLevel.READ_ONLY"
  | .SAFE_COMPUTE => "AuthorityLevel.SAFE_COMPUTE"
  | .INFO_RETRIEVAL => "AuthorityLevel.INFO_RETRIEVAL"
  | .FILE_READ => "AuthorityLevel.FILE_READ"
  | .FILE_WRITE => "AuthorityLevel.FILE_WRITE"
  | .SYSTEM_EXEC => "AuthorityLevel.SYSTEM_EXEC"

/-- `AuthorityRequirements` dataclass (authority.py lines 71-91).
`trust_threshold` is a float in the source; the claims never compute with
it, so it is carried as an exact rational. -/
structure AuthorityRequirements where
  level : AuthorityLevel
  approval_needed : Bool
  consensus_required : Nat
  trust_threshold : Rat
  sandbox_required : Bool
  skills_allowed : List String
  rate_limits : List (String × Nat)
deriving DecidableEq, Repr

/-- `get_authority_requirements` (authority.py lines 94-161). -/
def get_authority_requirements : AuthorityLevel → AuthorityRequirements
  | .READ_ONLY =>
    { level := .READ_ONLY, approval_needed := false, consensus_required := 0,
      trust_threshold := 0, sandbox_required := false,
      skills_allowed := ["read_docs"],
      rate_limits := [("per_minute", 1000), ("per_hour", 10000)] }
  | .SAFE_COMPUTE =>
    { level := .SAFE_COMPUTE, approval_needed := false, consensus_required := 0,
      trust_threshold := 8 / 10, sandbox_required := false,
      skills_allowed := ["math", "text_analysis", "format"],
      rate_limits := [("per_minute", 500), ("per_hour", 5000)] }
  | .INFO_RETRIEVAL =>
    { level := .INFO_RETRIEVAL, approval_needed := false, consensus_required := 0,
      trust_threshold := 8 / 10, sandbox_required := false,
      skills_allowed := ["web_search", "api_query_get"],
      rate_limits := [("per_minute", 100), ("per_hour", 1000)] }
  | .FILE_READ =>
    { level := .FILE_READ, approval_needed := false, consensus_required := 0,
      trust_threshold := 8 / 10, sandbox_required := false,
      skills_allowed := ["file_read", "dir_list"],
      rate_limits := [("per_minute", 200), ("per_hour", 2000)] }
  | .FILE_WRITE =>
    { level := .FILE_WRITE, approval_needed := true, consensus_required := 4,
      trust_threshold := 9 / 10, sandbox_required := true,
      skills_allowed := ["file_write", "file_delete"],
      rate_limits := [("per_minute", 50), ("per_hour", 500)] }
  | .SYSTEM_EXEC =>
    { level := .SYSTEM_EXEC, approval_needed := true, consensus_required := 7,
      trust_threshold := 95 / 100, sandbox_required := true,
      skills_allowed := ["shell_exec", "system_modify", "network_write"],
      rate_limits := [("per_minute", 10), ("per_hour", 100)] }

/-- `is_operation_authorized` (authority.py lines 164-178):
`agent_level.value >= operation_level.value`. -/
def is_operation_authorized (operation_level agent_level : AuthorityLevel) : Bool :=
  decide (operation_level.value ≤ agent_level.value)

/-- `get_byzantine_quorum_size` (authority.py lines 181-201). The Python
default for `fault_tolerance` is 1; callers in the repository never pass
any other value. -/
def get_byzantine_quorum_size (authority_level : AuthorityLevel) (fault_tolerance : Nat) : Nat :=
  if authority_level.value < AuthorityLevel.FILE_WRITE.value then 0
  else 3 * fault_tolerance + 1

/-- The six levels in enum-declaration order (used to state the total
order of the hierarchy independently of `.value`). -/
def levelList : List AuthorityLevel :=
  [.READ_ONLY, .SAFE_COMPUTE, .INFO_RETRIEVAL, .FILE_READ, .FILE_WRITE, .SYSTEM_EXEC]

/-- Position of a level in the declared hierarchy. -/
def levelIndex (l : AuthorityLevel) : Nat :=
  levelList.findIdx (fun x => decide (x = l))

/-! ## Audit chain — ora/audit/immutable_log.py -/

/-- The nine signed columns of an audit row (`entry_data` as built in
`ImmutableAuditLog.log` lines 130-140, and as re-read by `verify_chain`
lines 201-211; `parameters` is the JSON-dumped string column). -/
structure EntryData where
  timestamp : String
  level : String
  action : String
  tool : String
  parameters : String
  authority : String
  result : String
  session_id : String
  user_id : String
deriving DecidableEq, Repr

/-- A signature value. `genesis` is the all-zero sentinel `"0" * 64`;
`hmacSig machineId prevSig hour entry` is
`hmac.new(sha256(f"machineId:prevSig:hour"), json.dumps(entry, sort_keys=True), sha256)`
(`_derive_key` lines 100-111 plus `_sign_entry` lines 113-118), modelled
as a free constructor: the collision-freeness abstraction of HMAC-SHA256. -/
inductive Signature where
  | genesis
  | hmacSig (machineId : String) (prevSig : Signature) (hour : Nat) (entry : EntryData)
deriving DecidableEq, Repr

/-- `_sign_entry` applied with the key derived from `lastSig` and the
hour window `hour` on machine `machineId`. -/
def signEntry (machineId : String) (lastSig : Signature) (hour : Nat) (e : EntryData) : Signature :=
  Signature.hmacSig machineId lastSig hour e

/-- One stored row of the `audit_log` table: the nine signed columns plus
the stored `signature` column. -/
structure AuditRow where
  data : EntryData
  signature : Signature
deriving DecidableEq, Repr

/-- In-memory/stored state of `ImmutableAuditLog`: the chain head
`_last_signature` and the table rows in id order. -/
structure AuditLogState where
  lastSignature : Signature
  rows : List AuditRow
deriving DecidableEq, Repr

/-- A fresh log over an empty store (`__init__` lines 53-57: genesis head,
no rows). -/
def freshAuditLog : AuditLogState :=
  { lastSignature := Signature.genesis, rows := [] }

/-- Core of `ImmutableAuditLog.log` (lines 129-173) given the built
`entry_data`: sign with the current head, then either insert the row and
advance the head (returning the signature), or — when the store insert
raises — leave the state untouched and return `None`. -/
def logEntry (st : AuditLogState) (machineId : String) (hour : Nat)
    (e : EntryData) (insertOk : Bool) : Option Signature × AuditLogState :=
  let s := signEntry machineId st.lastSignature hour e
  if insertOk then
    (some s, { lastSignature := s, rows := st.rows ++ [⟨e, s⟩] })
  else
    (none, st)

/-- `ImmutableAuditLog.log` (lines 120-173): builds `entry_data` from the
arguments (timestamp is the clock input `now`; `parameters` is dumped;
session and user fall back to `"default"`/`"anonymous"`), then runs
`logEntry`. -/
def ImmutableAuditLog.log (st : AuditLogState) (machineId : String) (hour : Nat)
    (now level action tool : String) (parameters : List (String × String))
    (authority result session_id user_id : String) (insertOk : Bool) :
    Option Signature × AuditLogState :=
  logEntry st machineId hour
    { timestamp := now, level := level, action := action, tool := tool,
      parameters := paramsJson parameters, authority := authority, result := result,
      session_id := orDefault session_id "default",
      user_id := orDefault user_id "anonymous" }
    insertOk

/-- Append a list of entries with `logEntry`, every insert succeeding. -/
def logAll (st : AuditLogState) (machineId : String) (hour : Nat)
    (es : List EntryData) : AuditLogState :=
  es.foldl (fun s e => (logEntry s machineId hour e true).2) st

/-- The result dict of `verify_chain` (lines 189-194). -/
structure VerifyResult where
  total_checked : Nat
  valid : Nat
  invalid : Nat
  errors : List String
deriving DecidableEq, Repr

/-- The body of the `verify_chain` loop (lines 198-222) for one row:
recompute the signature with `_sign_entry` — whose key is derived from
the CURRENT `_last_signature` (`head`), not from the previous row — and
compare with the stored one. -/
def verifyStep (machineId : String) (head : Signature) (hour : Nat)
    (acc : VerifyResult) (r : AuditRow) : VerifyResult :=
  if signEntry machineId head hour r.data = r.signature then
    { acc with valid := acc.valid + 1 }
  else
    { acc with
      invalid := acc.invalid + 1
      errors := acc.errors ++ ["Entry at " ++ r.data.timestamp ++ " has invalid signature"] }

/-- `verify_chain` (lines 175-224): take the newest `limit` rows, then
re-check them from oldest to newest. -/
def verify_chain (st : AuditLogState) (machineId : String) (hour : Nat)
    (limit : Nat) : VerifyResult :=
  let taken := st.rows.drop (st.rows.length - limit)
  taken.foldl (verifyStep machineId st.lastSignature hour)
    { total_checked := taken.length, valid := 0, invalid := 0, errors := [] }

/-- Overwrite one field of the stored row at index `i` (a tamper edit to
the sqlite data columns; the stored signature column is untouched). -/
def mutateRows : List AuditRow → Nat → (EntryData → EntryData) → List AuditRow
  | [], _, _ => []
  | r :: rest, 0, f => ⟨f r.data, r.signature⟩ :: rest
  | r :: rest, Nat.succ n, f => r :: mutateRows rest n f

/-- Tamper with row `i` of the store; `_last_signature` is unaffected
(it is the signature column of the newest row, which the edit leaves alone). -/
def mutateAudit (st : AuditLogState) (i : Nat) (f : EntryData → EntryData) : AuditLogState :=
  { st with rows := mutateRows st.rows i f }

/-! ## Constitution engine — ora/core/constitution.py -/

/-- `ConstitutionalConstraint` dataclass (constitution.py lines 38-54). -/
structure ConstitutionalConstraint where
  article : String
  title : String
  description : String
  authority_levels : List AuthorityLevel
  enforcement : String
deriving DecidableEq, Repr

/-- `Operation` dataclass (constitution.py lines 57-75); `parameters` is
an insertion-ordered dict of strings in the governed scenarios. -/
structure Operation where
  operation_id : String
  agent_id : String
  skill_name : String
  parameters : List (String × String)
  authority_level : AuthorityLevel
  description : String
deriving DecidableEq, Repr

/-- `Constitution.PRIME_DIRECTIVE` (line 145). -/
def PRIME_DIRECTIVE : String :=
  "No agent shall cause harm to humans, human systems, or human data through action or inaction."

/-- `Constitution.VERSION` (line 143). -/
def CONSTITUTION_VERSION : String := "2.0.0"

/-- `Constitution.AUTHORITY_HIERARCHY` (lines 147-154). -/
def AUTHORITY_HIERARCHY : List String :=
  ["L0: CONSTITUTIONAL AUTHORITY (This Document)",
   "L1: HUMAN OPERATORS (Ultimate Authority)",
   "L2: KERNEL AUTHORITY (System Governance)",
   "L3: AGENT HIERARCHY (Planner → Researcher → Builder → Tester → Integrator)",
   "L4: SKILL EXECUTION (Sandboxed Operations)",
   "L5: EXTERNAL SYSTEMS (APIs, File System, Network)"]

/-- All six levels, i.e. Python `list(AuthorityLevel)`. -/
def allLevels : List AuthorityLevel := levelList

/-- `_load_default_constraints` (lines 187-230). -/
def defaultConstraints : List ConstitutionalConstraint :=
  [{ article := "ARTICLE_I_SECTION_1", title := "Prime Directive",
     description := PRIME_DIRECTIVE,
     authority_levels := allLevels, enforcement := "strict" },
   { article := "ARTICLE_II_SECTION_3", title := "Prohibited Actions",
     description := "Agents are absolutely forbidden from prohibited operations",
     authority_levels := allLevels, enforcement := "strict" },
   { article := "ARTICLE_IV_SECTION_1", title := "Triple-Lock Verification",
     description := "All A4+ operations must pass Vericoding, GraphRAG, and RLM verification",
     authority_levels := [.FILE_WRITE, .SYSTEM_EXEC], enforcement := "strict" },
   { article := "ARTICLE_V_SECTION_1", title := "Post-Quantum Cryptography",
     description := "All cryptographic operations must use NIST-approved PQC algorithms",
     authority_levels := allLevels, enforcement := "strict" },
   { article := "ARTICLE_VI_SECTION_1", title := "Immutable Audit Trail",
     description := "All agent actions must be logged with cryptographic signatures",
     authority_levels := allLevels, enforcement := "strict" }]

/-- The data `_compute_hash` (lines 232-254) canonicalises and hashes:
version, prime directive, hierarchy, and the (article, title,
description, level values) projection of each constraint — note the
`enforcement` field is NOT part of the fingerprint, exactly as in the
source. SHA-256 is modelled injectively, so the fingerprint is the
projection itself. -/
structure FingerprintData where
  version : String
  prime_directive : String
  authority_hierarchy : List String
  constraints : List (String × String × String × List Nat)
deriving DecidableEq, Repr

/-- Instance state of `Constitution` (constructor lines 172-185). -/
structure ConstitutionState where
  version : String
  prime_directive : String
  authority_hierarchy : List String
  constraints : List ConstitutionalConstraint
  immutableHash : FingerprintData
deriving DecidableEq, Repr

/-- `_compute_hash` over the current instance fields. -/
def computeHash (version prime_directive : String) (hierarchy : List String)
    (cs : List ConstitutionalConstraint) : FingerprintData :=
  { version := version, prime_directive := prime_directive,
    authority_hierarchy := hierarchy,
    constraints := cs.map (fun c =>
      (c.article, c.title, c.description, c.authority_levels.map AuthorityLevel.value)) }

/-- `Constitution()` with the default constraints. -/
def defaultConstitution : ConstitutionState :=
  { version := CONSTITUTION_VERSION, prime_directive := PRIME_DIRECTIVE,
    authority_hierarchy := AUTHORITY_HIERARCHY, constraints := defaultConstraints,
    immutableHash :=
      computeHash CONSTITUTION_VERSION PRIME_DIRECTIVE AUTHORITY_HIERARCHY defaultConstraints }

/-- `verify_immutability` (lines 256-264). -/
def verify_immutability (c : ConstitutionState) : Bool :=
  decide (computeHash c.version c.prime_directive c.authority_hierarchy c.constraints
    = c.immutableHash)

/-- The harmful-keyword list of `_violates_prime_directive` (lines 338-350). -/
def harmfulKeywords : List String :=
  ["destruct", "delete", "remove", "format", "erase", "wipe",
   "malware", "virus", "attack", "exploit", "bypass"]

/-- The scanned text `f"{skill_name} {description} {json.dumps(parameters)}"`. -/
def operationText (op : Operation) : String :=
  op.skill_name ++ " " ++ op.description ++ " " ++ paramsJson op.parameters

/-- `_violates_prime_directive` (lines 328-360): case-insensitive keyword
scan over the operation text. -/
def violates_prime_directive (op : Operation) : Bool :=
  harmfulKeywords.any (fun k => strContains (lowerStr (operationText op)) k)

/-- Outcome of `validate_operation`: pass-through, or one of the raised
exception classes (carrying the exception message). -/
inductive ValidationOutcome where
  | ok
  | constitutionalViolation (msg : String)
  | primeDirectiveViolation (msg : String)
  | prohibitedOperationViolation (msg : String)
deriving DecidableEq, Repr

/-- The `_enforce_constraint` loop of `validate_operation` (lines 287-291
with lines 298-326). Advisory/logging constraints only log; among strict
constraints only the `ARTICLE_I_SECTION_1` branch can raise
(`PrimeDirectiveViolation`); the `ARTICLE_IV_SECTION_1` branch merely
logs the trust threshold. Returns the message of the first raise. -/
def enforceConstraints (op : Operation) : List ConstitutionalConstraint → Option String
  | [] => none
  | c :: rest =>
    if op.authority_level ∈ c.authority_levels then
      if c.enforcement = "advisory" ∨ c.enforcement = "logging" then
        enforceConstraints op rest
      else if c.article = "ARTICLE_I_SECTION_1" ∧ violates_prime_directive op then
        some ("Operation " ++ op.operation_id ++ " violates Prime Directive: " ++ c.description)
      else
        enforceConstraints op rest
    else
      enforceConstraints op rest

/-- `validate_operation` (lines 266-296) together with
`_check_prohibited_operations` (lines 362-380). -/
def validate_operation (c : ConstitutionState) (op : Operation) : ValidationOutcome :=
  if ¬ verify_immutability c then
    .constitutionalViolation "Constitution integrity check failed - possible modification"
  else
    match enforceConstraints op c.constraints with
    | some m => .primeDirectiveViolation m
    | none =>
      if strContains (lowerStr op.skill_name) "self_replicate" then
        .prohibitedOperationViolation ("Operation " ++ op.operation_id ++
          " is prohibited: Self-replication without explicit authorization gate approval")
      else if strContains (lowerStr op.skill_name) "kernel"
          ∧ strContains (lowerStr op.skill_name) "modify" then
        .prohibitedOperationViolation ("Operation " ++ op.operation_id ++
          " is prohibited: Modifying agents own code or the kernel")
      else
        .ok

/-! ## Security gate coordinator — ora/security/gates.py

The six primitive scanners are regex/path engines; the coordinator is
embedded exactly, parametrised by the scanner verdict functions (a
`GateFns` record), so every theorem below holds for the actual regex
behaviour as a special case. Each scanner returns the
`(bool, detail)` pair of the source. -/

/-- `SecurityCheckResult` dataclass (gates.py lines 287-294);
`sanitized_value` is always `None` in the source and is omitted. -/
structure SecurityCheckResult where
  passed : Bool
  gate_name : String
  threat_detected : Bool
  reason : Option String
deriving DecidableEq, Repr

/-- The verdict functions of the six gate objects held by
`SecurityGateCoordinator` (lines 300-316): `PromptInjectionScanner.scan`,
`ShellCommandSanitizer.validate`, `SandboxEnforcer.requires_sandbox`,
`CredentialGuard.scan`, `NetworkAllowlist.is_allowed`,
`WorkspaceBoundaryEnforcer.is_within_workspace`. -/
structure GateFns where
  promptScan : String → Bool × List String
  shellValidate : String → Bool × Option String
  sandboxRequires : String → String → Bool × Option String
  credScan : String → Bool × Option String
  netAllowed : String → Bool × Option String
  wsWithin : String → Bool × Option String

/-- `check_prompt` (lines 318-326). -/
def check_prompt (g : GateFns) (text : String) : SecurityCheckResult :=
  let r := g.promptScan text
  { passed := r.1, gate_name := "prompt_injection", threat_detected := !r.1,
    reason := if r.1 then none
              else some ("Detected patterns: " ++ String.intercalate ", " r.2) }

/-- `check_shell_command` (lines 328-336). -/
def check_shell_command (g : GateFns) (command : String) : SecurityCheckResult :=
  let r := g.shellValidate command
  { passed := r.1, gate_name := "shell_sanitizer", threat_detected := !r.1, reason := r.2 }

/-- `check_sandbox_requirement` (lines 338-346): passes when the
operation does NOT require a sandbox. -/
def check_sandbox_requirement (g : GateFns) (operation tool : String) : SecurityCheckResult :=
  let r := g.sandboxRequires operation tool
  { passed := !r.1, gate_name := "sandbox_enforcer", threat_detected := r.1, reason := r.2 }

/-- `check_credential_exposure` (lines 348-356). -/
def check_credential_exposure (g : GateFns) (text : String) : SecurityCheckResult :=
  let r := g.credScan text
  { passed := r.1, gate_name := "credential_guard", threat_detected := !r.1, reason := r.2 }

/-- `check_network_access` (lines 358-366). -/
def check_network_access (g : GateFns) (url : String) : SecurityCheckResult :=
  let r := g.netAllowed url
  { passed := r.1, gate_name := "network_allowlist", threat_detected := !r.1, reason := r.2 }

/-- `check_workspace_boundary` (lines 368-376). -/
def check_workspace_boundary (g : GateFns) (file_path : String) : SecurityCheckResult :=
  let r := g.wsWithin file_path
  { passed := r.1, gate_name := "workspace_boundary", threat_detected := !r.1, reason := r.2 }

/-- Python dict lookup on an insertion-ordered string dict. -/
def dictGet? (req : List (String × String)) (k : String) : Option String :=
  (req.find? (fun kv => decide (kv.1 = k))).map (fun kv => kv.2)

/-- `request.get("tool", "unknown")`. -/
def dictGetD (req : List (String × String)) (k d : String) : String :=
  (dictGet? req k).getD d

/-- The dict returned by `run_all_gates` (lines 416-424); `gate_results`
keeps the full per-gate results keyed as in the source. -/
structure GateOutcome where
  overall_passed : Bool
  threat_detected : Bool
  gate_results : List (String × SecurityCheckResult)
deriving Repr

/-- The `results` dict built by `run_all_gates` (lines 380-410): prompt,
shell, sandbox (with tool defaulting to "unknown"), one credential check
per string field kept only when it fails (the `len(value) > -1` guard is
always true), network, workspace — in that insertion order. -/
def gateResults (g : GateFns) (req : List (String × String)) :
    List (String × SecurityCheckResult) :=
  (match dictGet? req "prompt" with
   | some t => [("prompt", check_prompt g t)]
   | none => [])
  ++ (match dictGet? req "shell_command" with
   | some c => [("shell", check_shell_command g c)]
   | none => [])
  ++ (match dictGet? req "operation" with
   | some op => [("sandbox", check_sandbox_requirement g op (dictGetD req "tool" "unknown"))]
   | none => [])
  ++ (req.filterMap (fun kv =>
        let r := check_credential_exposure g kv.2
        if !r.passed then some ("credential_" ++ kv.1, r) else none))
  ++ (match dictGet? req "url" with
   | some u => [("network", check_network_access g u)]
   | none => [])
  ++ (match dictGet? req "file_path" with
   | some p => [("workspace", check_workspace_boundary g p)]
   | none => [])

/-- `run_all_gates` (lines 378-424): `overall_passed` is the conjunction
of the produced `passed` flags, `threat_detected` the disjunction of the
produced `threat_detected` flags. -/
def run_all_gates (g : GateFns) (req : List (String × String)) : GateOutcome :=
  let results := gateResults g req
  { overall_passed := results.all (fun kr => kr.2.passed),
    threat_detected := results.any (fun kr => kr.2.threat_detected),
    gate_results := results }

/-! ## Governance kernel — ora/core/kernel.py -/

/-- `KernelResult` dataclass (kernel.py lines 62-83). -/
structure KernelResult where
  status : String
  output : String
  operation_id : String
  authority_required : AuthorityLevel
  requires_approval : Bool
  approval_id : Option String
  error : Option String
deriving DecidableEq, Repr

/-- `AgentResult` as produced by `_agent_fleet_execute` (lines 387-439):
its `status` is `"success"` or `"error"`. The LLM call outcome
is an input of the model. -/
inductive ExecOutcome where
  | success (output : String)
  | failureErr (output : String) (error : String)
deriving DecidableEq, Repr

/-- `parse_command` (lines 163-223) minus id generation: the fresh
`op_...` id is the explicit input `opId`. -/
def parse_command (command user opId : String) : Operation :=
  let cl := lowerStr command
  if strContains cl "search" || strContains cl "web" || strContains cl "find" then
    { operation_id := opId, agent_id := user, skill_name := "web_search",
      parameters := [("query", command)], authority_level := .INFO_RETRIEVAL,
      description := command }
  else if strContains cl "read" || strContains cl "file" then
    { operation_id := opId, agent_id := user, skill_name := "file_read",
      parameters := [("path",
        if strContains cl "file" then stripStr (pySplitLast command "file") else "")],
      authority_level := .FILE_READ, description := command }
  else if strContains cl "write" || strContains cl "save" || strContains cl "create" then
    { operation_id := opId, agent_id := user, skill_name := "file_write",
      parameters := [("content", command)], authority_level := .FILE_WRITE,
      description := command }
  else if strContains cl "execute" || strContains cl "run" || strContains cl "shell" then
    { operation_id := opId, agent_id := user, skill_name := "shell_exec",
      parameters := [("command", command)], authority_level := .SYSTEM_EXEC,
      description := command }
  else if strContains cl "calculate" || strContains cl "compute" || strContains cl "math" then
    { operation_id := opId, agent_id := user, skill_name := "math",
      parameters := [("expression", command)], authority_level := .SAFE_COMPUTE,
      description := command }
  else if strContains cl "delete" || strContains cl "remove" then
    { operation_id := opId, agent_id := user, skill_name := "file_delete",
      parameters := [("path", command)], authority_level := .FILE_WRITE,
      description := command }
  else if strContains cl "analyze" || strContains cl "review" then
    { operation_id := opId, agent_id := user, skill_name := "code_analyzer",
      parameters := [("query", command)], authority_level := .FILE_READ,
      description := command }
  else
    { operation_id := opId, agent_id := user, skill_name := "research",
      parameters := [("query", command)], authority_level := .INFO_RETRIEVAL,
      description := command }

/-- `process_command` after the security-gate step (kernel.py lines
269-351), for a kernel whose `constitution` is the default one: validate,
then compute requirements, then — when an `audit_logger` is attached —
append the single `result="pending"` entry (lines 313-323, passing
`level="OPERATION"`, `tool=skill.split("_")[0]`,
`parameters={"command": command, "user": user}`,
`authority=str(level)`, `session_id=user`), then either return
`pending_approval` (lines 326-335) or relay the fleet-execution outcome
(lines 337-351). The three violation branches return without touching
the audit state. -/
def processOperation (auditPresent : Bool) (st : AuditLogState)
    (machineId : String) (hour : Nat) (now command user approvalId : String)
    (op : Operation) (exec : ExecOutcome) : KernelResult × AuditLogState :=
  match validate_operation defaultConstitution op with
  | .primeDirectiveViolation m =>
    ({ status := "blocked", output := "Operation blocked: Violates Prime Directive",
       operation_id := op.operation_id, authority_required := op.authority_level,
       requires_approval := false, approval_id := none, error := some m }, st)
  | .prohibitedOperationViolation m =>
    ({ status := "blocked", output := "Operation blocked: Prohibited by Constitution",
       operation_id := op.operation_id, authority_required := op.authority_level,
       requires_approval := false, approval_id := none, error := some m }, st)
  | .constitutionalViolation m =>
    ({ status := "rejected", output := "Constitutional violation: " ++ m,
       operation_id := op.operation_id, authority_required := op.authority_level,
       requires_approval := false, approval_id := none, error := some m }, st)
  | .ok =>
    let reqs := get_authority_requirements op.authority_level
    let st2 :=
      if auditPresent then
        (ImmutableAuditLog.log st machineId hour now "OPERATION" op.skill_name
          (firstUnderscoreToken op.skill_name)
          [("command", command), ("user", user)]
          op.authority_level.pyStr "pending" user "" true).2
      else st
    if reqs.approval_needed then
      ({ status := "pending_approval",
         output := "Operation requires approval at " ++ op.authority_level.nameDisplay,
         operation_id := op.operation_id, authority_required := op.authority_level,
         requires_approval := true, approval_id := some approvalId, error := none }, st2)
    else
      match exec with
      | .success out =>
        ({ status := "success", output := out, operation_id := op.operation_id,
           authority_required := op.authority_level, requires_approval := false,
           approval_id := none, error := none }, st2)
      | .failureErr out err =>
        ({ status := "error", output := out, operation_id := op.operation_id,
           authority_required := op.authority_level, requires_approval := false,
           approval_id := none, error := some err }, st2)

/-- `process_command` (lines 225-385). When a security-gate coordinator
is attached, the kernel reads `.passed` off the dict returned by
`run_all_gates` (line 259); a dict has no such attribute, the
`AttributeError` is caught by the outer handler (lines 369-385) and the
call returns `status="error"` with `authority_required=READ_ONLY`,
without touching the audit state. Without gates the flow continues into
`processOperation` on the parsed operation. -/
def processCommand (gatesPresent auditPresent : Bool) (st : AuditLogState)
    (machineId : String) (hour : Nat) (now command user opId approvalId : String)
    (exec : ExecOutcome) : KernelResult × AuditLogState :=
  if gatesPresent then
    ({ status := "error",
       output := "Error: AttributeError: dict object has no attribute passed",
       operation_id := opId, authority_required := .READ_ONLY,
       requires_approval := false, approval_id := none,
       error := some "AttributeError: dict object has no attribute passed" }, st)
  else
    processOperation auditPresent st machineId hour now command user approvalId
      (parse_command command user opId) exec

/-! ## Incident tracker — ora/audit/incidents.py -/

/-- `Incident` dataclass (incidents.py lines 32-41). -/
structure Incident where
  id : String
  timestamp : String
  incident_type : String
  description : String
  agent : Option String
  operation : Option String
  details : List (String × String)
  status : String
deriving DecidableEq, Repr

/-- `IncidentResolution` dataclass (lines 44-49). -/
structure IncidentResolution where
  root_cause : String
  prevention_gate : String
  verified_at : String
  verified_by : String
deriving DecidableEq, Repr

/-- `IncidentEntry` dataclass (lines 52-56). -/
structure IncidentEntry where
  incident : Incident
  resolution : Option IncidentResolution
  closed_at : Option String
deriving DecidableEq, Repr

/-- In-memory state of `IncidentTracker` (constructor lines 72-79):
the entry log, the per-session per-type counters, and the two-strike
flag. Escalation callbacks have no effect on this state (their
exceptions are swallowed, line 160-163) and are not modelled. -/
structure TrackerState where
  log : List IncidentEntry
  session_counts : List (String × Nat)
  two_strike_triggered : Bool
deriving DecidableEq, Repr

/-- A tracker over an empty store. -/
def freshTracker : TrackerState :=
  { log := [], session_counts := [], two_strike_triggered := false }

/-- `dict.get(k, 0)` on the counter dict. -/
def countsGet (cs : List (String × Nat)) (k : String) : Nat :=
  ((cs.find? (fun kv => decide (kv.1 = k))).map (fun kv => kv.2)).getD 0

/-- `dict[k] = v`: update the existing key in place, else append. -/
def countsSet : List (String × Nat) → String → Nat → List (String × Nat)
  | [], k, v => [(k, v)]
  | kv :: rest, k, v =>
    if kv.1 = k then (k, v) :: rest else kv :: countsSet rest k v

/-- `IncidentTracker.record` (lines 122-165) minus id/timestamp
generation (`inc_id` and `now` are explicit inputs): append the open
incident, bump the per-session counter for its type, and set the
two-strike flag when the counter reaches 2 and the flag is not already
set. Returns the incident id. -/
def IncidentTracker.record (st : TrackerState) (now inc_id incident_type description : String)
    (agent operation : Option String) (details : List (String × String)) :
    String × TrackerState :=
  let inc : Incident :=
    { id := inc_id, timestamp := now, incident_type := incident_type,
      description := description, agent := agent, operation := operation,
      details := details, status := "open" }
  let entry : IncidentEntry := { incident := inc, resolution := none, closed_at := none }
  let n := countsGet st.session_counts incident_type + 1
  let counts2 := countsSet st.session_counts incident_type n
  let trig :=
    if 2 ≤ n ∧ ¬ st.two_strike_triggered = true then true else st.two_strike_triggered
  (inc_id, { log := st.log ++ [entry], session_counts := counts2, two_strike_triggered := trig })

/-- The in-place update of the first entry whose incident id matches
(lines 175-186): attach the resolution, set the status to `"resolved"`
and the closed timestamp. Returns the resolved incident type and the
updated log, or `none` when no entry matches. -/
def resolveInLog (now root_cause prevention_gate verified_by incident_id : String) :
    List IncidentEntry → Option (String × List IncidentEntry)
  | [] => none
  | e :: rest =>
    if e.incident.id = incident_id then
      some (e.incident.incident_type,
        { incident := { e.incident with status := "resolved" },
          resolution := some
            { root_cause := root_cause, prevention_gate := prevention_gate,
              verified_at := now, verified_by := verified_by },
          closed_at := some now } :: rest)
    else
      match resolveInLog now root_cause prevention_gate verified_by incident_id rest with
      | none => none
      | some (t, rest2) => some (t, e :: rest2)

/-- `IncidentTracker.resolve` (lines 167-205): update the entry; then, if
no open incident of the resolved type remains, zero the session
counter and clear the two-strike flag unless some type still has a
counter at or above 2. -/
def IncidentTracker.resolve (st : TrackerState)
    (now incident_id root_cause prevention_gate verified_by : String) :
    Bool × TrackerState :=
  match resolveInLog now root_cause prevention_gate verified_by incident_id st.log with
  | none => (false, st)
  | some (t, log2) =>
    let openOfType := log2.filter (fun e =>
      decide (e.incident.incident_type = t) && decide (e.incident.status ≠ "resolved"))
    if openOfType.isEmpty then
      let counts2 := countsSet st.session_counts t 0
      let trig2 :=
        if st.two_strike_triggered then
          if counts2.any (fun kv => decide (2 ≤ kv.2)) then st.two_strike_triggered
          else false
        else st.two_strike_triggered
      (true, { log := log2, session_counts := counts2, two_strike_triggered := trig2 })
    else
      (true, { st with log := log2 })

/-! ## Proof-support definitions and concrete scenario data -/

/-- Chain length encoded in a signature value (how many `hmacSig` layers
sit above the genesis sentinel). -/
def sigDepth : Signature → Nat
  | .genesis => 0
  | .hmacSig _ p _ _ => sigDepth p + 1

/-- Invariant of every reachable audit store: no stored signature is
deeper than the chain head (each row was signed with a key derived from
an ancestor of the head). -/
def RowsBounded (st : AuditLogState) : Prop :=
  ∀ r ∈ st.rows, sigDepth r.signature ≤ sigDepth st.lastSignature

/-- A sample audit entry used for concrete evaluations. -/
def sampleEntry : EntryData :=
  { timestamp := "t1"
    level := "INFO"
    action := "log"
    tool := "tool"
    parameters := "p"
    authority := "A0"
    result := "pending"
    session_id := "s"
    user_id := "u" }

/-- A second sample audit entry. -/
def sampleEntry2 : EntryData := { sampleEntry with timestamp := "t2" }

/-- The C7 scenario operation: skill `shell_exec`, description
`format disk`, level `SYSTEM_EXEC`. -/
def op7 : Operation :=
  { operation_id := "op7"
    agent_id := "agent"
    skill_name := "shell_exec"
    parameters := []
    authority_level := .SYSTEM_EXEC
    description := "format disk" }

/-- The C8 scenario operation: skill `file_write`, params path/content,
level `FILE_WRITE`. -/
def op8 : Operation :=
  { operation_id := "op8"
    agent_id := "Randall"
    skill_name := "file_write"
    parameters := [("path", "/workspace/app.py"), ("content", "print(1)")]
    authority_level := .FILE_WRITE
    description := "write app.py" }

/-- The single pending audit entry `process_command` appends for `op8`
(kernel.py lines 314-323 with `ImmutableAuditLog.log` defaults). -/
def pendingEntry8 (now command user : String) : EntryData :=
  { timestamp := now
    level := "OPERATION"
    action := "file_write"
    tool := "file"
    parameters := paramsJson [("command", command), ("user", user)]
    authority := "AuthorityLevel.FILE_WRITE"
    result := "pending"
    session_id := orDefault user "default"
    user_id := "anonymous" }

/-- `record` with no agent/operation/details, keeping only the new state. -/
def recordIncident (st : TrackerState) (now inc_id incident_type description : String) :
    TrackerState :=
  (IncidentTracker.record st now inc_id incident_type description none none []).2

/-- `resolve` with fixed root-cause data, keeping only the new state. -/
def resolveIncident (st : TrackerState) (now incident_id : String) : TrackerState :=
  (IncidentTracker.resolve st now incident_id "cause" "gate" "operator").2

/-- The entry `record` appends (an open incident, no resolution). -/
def openEntry (now inc_id incident_type description : String) : IncidentEntry :=
  { incident :=
      { id := inc_id, timestamp := now, incident_type := incident_type,
        description := description, agent := none, operation := none,
        details := [], status := "open" }
    resolution := none
    closed_at := none }

/-- The entry shape `resolve` leaves behind for an `openEntry`. -/
def resolvedEntry (now inc_id incident_type description closedAt : String) : IncidentEntry :=
  { incident :=
      { id := inc_id, timestamp := now, incident_type := incident_type,
        description := description, agent := none, operation := none,
        details := [], status := "resolved" }
    resolution := some
      { root_cause := "cause", prevention_gate := "gate",
        verified_at := closedAt, verified_by := "operator" }
    closed_at := some closedAt }

/-! ## Audit-chain lemmas -/

theorem logEntry_false (st : AuditLogState) (m : String) (h : Nat) (e : EntryData) :
    logEntry st m h e false = (none, st) := by
  simp [logEntry]

theorem logEntry_true (st : AuditLogState) (m : String) (h : Nat) (e : EntryData) :
    logEntry st m h e true =
      (some (signEntry m st.lastSignature h e),
       { lastSignature := signEntry m st.lastSignature h e,
         rows := st.rows ++ [⟨e, signEntry m st.lastSignature h e⟩] }) := by
  simp [logEntry]

theorem rowsBounded_fresh : RowsBounded freshAuditLog := by
  intro r hr
  simp [freshAuditLog] at hr

theorem rowsBounded_logEntry (st : AuditLogState) (m : String) (h : Nat) (e : EntryData)
    (ok : Bool) (hb : RowsBounded st) : RowsBounded (logEntry st m h e ok).2 := by
  cases ok with
  | false => simpa [logEntry_false] using hb
  | true =>
    intro r hr
    rw [logEntry_true] at hr ⊢
    simp only [List.mem_append, List.mem_singleton] at hr
    rcases hr with hr | hr
    · have := hb r hr
      simp only [signEntry, sigDepth]
      omega
    · subst hr
      simp [signEntry, sigDepth]

theorem rowsBounded_logAll (m : String) (h : Nat) (es : List EntryData) :
    ∀ st : AuditLogState, RowsBounded st → RowsBounded (logAll st m h es) := by
  induction es with
  | nil => intro st hb; simpa [logAll] using hb
  | cons e rest ih =>
    intro st hb
    have h2 := rowsBounded_logEntry st m h e true hb
    simpa [logAll, List.foldl_cons] using ih (logEntry st m h e true).2 h2

theorem logAll_rows_length (m : String) (h : Nat) (es : List EntryData) :
    ∀ st : AuditLogState, (logAll st m h es).rows.length = st.rows.length + es.length := by
  induction es with
  | nil => intro st; simp [logAll]
  | cons e rest ih =>
    intro st
    have h2 := ih (logEntry st m h e true).2
    simp only [logAll, List.foldl_cons] at h2 ⊢
    rw [h2, logEntry_true]
    simp
    omega

theorem mutateRows_sig_mem (f : EntryData → EntryData) :
    ∀ (rs : List AuditRow) (i : Nat), ∀ r ∈ mutateRows rs i f,
      ∃ r2 ∈ rs, r.signature = r2.signature := by
  intro rs
  induction rs with
  | nil => intro i r hr; simp [mutateRows] at hr
  | cons a rest ih =>
    intro i r hr
    cases i with
    | zero =>
      simp only [mutateRows, List.mem_cons] at hr
      rcases hr with hr | hr
      · exact ⟨a, by simp, by rw [hr]⟩
      · exact ⟨r, by simp [hr], rfl⟩
    | succ n =>
      simp only [mutateRows, List.mem_cons] at hr
      rcases hr with hr | hr
      · exact ⟨a, by simp, by rw [hr]⟩
      · obtain ⟨r2, hr2, hs⟩ := ih n r hr
        exact ⟨r2, by simp [hr2], hs⟩

theorem mutateRows_length (f : EntryData → EntryData) :
    ∀ (rs : List AuditRow) (i : Nat), (mutateRows rs i f).length = rs.length := by
  intro rs
  induction rs with
  | nil => intro i; simp [mutateRows]
  | cons a rest ih =>
    intro i
    cases i with
    | zero => simp [mutateRows]
    | succ n => simp [mutateRows, ih n]

theorem rowsBounded_mutateAudit (st : AuditLogState) (i : Nat) (f : EntryData → EntryData)
    (hb : RowsBounded st) : RowsBounded (mutateAudit st i f) := by
  intro r hr
  simp only [mutateAudit] at hr ⊢
  obtain ⟨r2, hr2, hs⟩ := mutateRows_sig_mem f st.rows i r hr
  rw [hs]
  exact hb r2 hr2

theorem signEntry_ne_of_le (m : String) (head : Signature) (h : Nat) (r : AuditRow)
    (hd : sigDepth r.signature ≤ sigDepth head) :
    ¬ signEntry m head h r.data = r.signature := by
  intro he
  have h1 : sigDepth (signEntry m head h r.data) = sigDepth head + 1 := rfl
  rw [he] at h1
  omega

theorem foldl_verifyStep_all_invalid (m : String) (head : Signature) (h : Nat) :
    ∀ (rows : List AuditRow) (acc : VerifyResult),
      (∀ r ∈ rows, ¬ signEntry m head h r.data = r.signature) →
      ((rows.foldl (verifyStep m head h) acc).valid = acc.valid ∧
       (rows.foldl (verifyStep m head h) acc).invalid = acc.invalid + rows.length ∧
       (rows.foldl (verifyStep m head h) acc).total_checked = acc.total_checked) := by
  intro rows
  induction rows with
  | nil => intro acc _; simp
  | cons a rest ih =>
    intro acc hall
    have ha := hall a (by simp)
    have hrest : ∀ r ∈ rest, ¬ signEntry m head h r.data = r.signature :=
      fun r hr => hall r (by simp [hr])
    obtain ⟨hv, hi, ht⟩ := ih (verifyStep m head h acc a) hrest
    have hstep : verifyStep m head h acc a =
        { acc with
          invalid := acc.invalid + 1
          errors := acc.errors ++ ["Entry at " ++ a.data.timestamp ++ " has invalid signature"] } := by
      simp [verifyStep, ha]
    rw [List.foldl_cons, hv, hi, ht, hstep]
    refine ⟨rfl, ?_, rfl⟩
    simp
    omega

theorem verify_chain_all_invalid_of_bounded (st : AuditLogState) (m : String) (h : Nat)
    (limit : Nat) (hb : RowsBounded st) :
    (verify_chain st m h limit).valid = 0 ∧
    (verify_chain st m h limit).invalid = (st.rows.drop (st.rows.length - limit)).length ∧
    (verify_chain st m h limit).total_checked
      = (st.rows.drop (st.rows.length - limit)).length := by
  have hall : ∀ r ∈ st.rows.drop (st.rows.length - limit),
      ¬ signEntry m st.lastSignature h r.data = r.signature := by
    intro r hr
    exact signEntry_ne_of_le m st.lastSignature h r
      (hb r (List.drop_subset (st.rows.length - limit) st.rows hr))
  have hfold := foldl_verifyStep_all_invalid m st.lastSignature h
    (st.rows.drop (st.rows.length - limit))
    { total_checked := (st.rows.drop (st.rows.length - limit)).length,
      valid := 0, invalid := 0, errors := [] } hall
  simpa [verify_chain] using hfold

/-! ## C1 and C2 -/

/-- **C1.** The claim states that appending N ≥ 1 entries to a fresh log
and verifying with limit ≥ N reports `valid = N`, `invalid = 0`. The
code does the opposite: `verify_chain` re-derives every expected
signature with a key built from the CURRENT `_last_signature` (the
`prev_signature` loop variable of immutable_log.py line 196/222 is never
used), so even the untampered chain is reported entirely invalid:
`valid = 0`, `invalid = N`. -/
theorem verify_chain_roundtrip_all_invalid (m : String) (h : Nat)
    (es : List EntryData) (limit : Nat) (hne : es ≠ []) (hlim : es.length ≤ limit) :
    (verify_chain (logAll freshAuditLog m h es) m h limit).total_checked = es.length ∧
    (verify_chain (logAll freshAuditLog m h es) m h limit).valid = 0 ∧
    (verify_chain (logAll freshAuditLog m h es) m h limit).invalid = es.length := by
  have hb := rowsBounded_logAll m h es freshAuditLog rowsBounded_fresh
  have hrows : (logAll freshAuditLog m h es).rows.length = es.length := by
    simpa [freshAuditLog] using logAll_rows_length m h es freshAuditLog
  obtain ⟨hv, hi, ht⟩ := verify_chain_all_invalid_of_bounded (logAll freshAuditLog m h es)
    m h limit hb
  rw [hrows] at hi ht
  have hdrop : es.length - limit = 0 := by omega
  rw [hdrop, List.drop_zero, hrows] at hi ht
  exact ⟨ht, hv, hi⟩

/-- Witness for C1 at a concrete input: one entry logged, then verified
with limit 1000. -/
theorem verify_chain_roundtrip_all_invalid_witness :
    ([sampleEntry] ≠ [] ∧ (1 : Nat) ≤ 1000) ∧
    (verify_chain (logAll freshAuditLog "machine" 7 [sampleEntry]) "machine" 7 1000).valid = 0 ∧
    (verify_chain (logAll freshAuditLog "machine" 7 [sampleEntry]) "machine" 7 1000).invalid = 1 :=
  ⟨⟨by simp, by decide⟩,
   (verify_chain_roundtrip_all_invalid "machine" 7 [sampleEntry] 1000 (by simp) (by decide)).2.1,
   (verify_chain_roundtrip_all_invalid "machine" 7 [sampleEntry] 1000 (by simp) (by decide)).2.2⟩

/-- **C2.** The claim states that after mutating one stored entry,
re-verification reports that entry and all later ones invalid but every
EARLIER entry valid. Because `verify_chain` keys every expected
signature off the current head (see C1), the code reports every checked
entry invalid — the earlier entries too: `valid = 0`, `invalid = N`,
for any mutation position and any field edit. -/
theorem verify_chain_after_mutation_all_invalid (m : String) (h : Nat)
    (es : List EntryData) (i : Nat) (f : EntryData → EntryData) (limit : Nat)
    (hne : es ≠ []) (hlim : es.length ≤ limit) :
    (verify_chain (mutateAudit (logAll freshAuditLog m h es) i f) m h limit).total_checked
      = es.length ∧
    (verify_chain (mutateAudit (logAll freshAuditLog m h es) i f) m h limit).valid = 0 ∧
    (verify_chain (mutateAudit (logAll freshAuditLog m h es) i f) m h limit).invalid
      = es.length := by
  have hb := rowsBounded_mutateAudit (logAll freshAuditLog m h es) i f
    (rowsBounded_logAll m h es freshAuditLog rowsBounded_fresh)
  have hrows : (mutateAudit (logAll freshAuditLog m h es) i f).rows.length = es.length := by
    have h1 : (logAll freshAuditLog m h es).rows.length = es.length := by
      simpa [freshAuditLog] using logAll_rows_length m h es freshAuditLog
    simp [mutateAudit, mutateRows_length, h1]
  obtain ⟨hv, hi, ht⟩ := verify_chain_all_invalid_of_bounded
    (mutateAudit (logAll freshAuditLog m h es) i f) m h limit hb
  rw [hrows] at hi ht
  have hdrop : es.length - limit = 0 := by omega
  rw [hdrop, List.drop_zero, hrows] at hi ht
  exact ⟨ht, hv, hi⟩

/-- Witness for C2 at a concrete input: two entries logged, the second
entry has its `result` field overwritten, verified with limit 1000; the FIRST
(earlier, untampered) entry is also reported invalid. -/
theorem verify_chain_after_mutation_all_invalid_witness :
    ([sampleEntry, sampleEntry2] ≠ [] ∧ (2 : Nat) ≤ 1000) ∧
    (verify_chain (mutateAudit (logAll freshAuditLog "machine" 7 [sampleEntry, sampleEntry2]) 1
        (fun e => { e with result := "tampered" })) "machine" 7 1000).valid = 0 ∧
    (verify_chain (mutateAudit (logAll freshAuditLog "machine" 7 [sampleEntry, sampleEntry2]) 1
        (fun e => { e with result := "tampered" })) "machine" 7 1000).invalid = 2 :=
  ⟨⟨by simp, by decide⟩,
   (verify_chain_after_mutation_all_invalid "machine" 7 [sampleEntry, sampleEntry2] 1
      (fun e => { e with result := "tampered" }) 1000 (by simp) (by decide)).2.1,
   (verify_chain_after_mutation_all_invalid "machine" 7 [sampleEntry, sampleEntry2] 1
      (fun e => { e with result := "tampered" }) 1000 (by simp) (by decide)).2.2⟩

/-! ## C10 -/

/-- **C10.** When the store insert raises inside `ImmutableAuditLog.log`
(the `except` branch, immutable_log.py lines 171-173), `log` returns
`None` and leaves the whole state — in particular `_last_signature` —
unchanged; a later successful append is therefore still keyed off the
old head, so the failed entry contributes to no subsequent signature. -/
theorem log_insert_failure_returns_none_keeps_head
    (st : AuditLogState) (m : String) (h : Nat) (e : EntryData)
    (m2 : String) (h2 : Nat) (e2 : EntryData) :
    logEntry st m h e false = (none, st) ∧
    (logEntry (logEntry st m h e false).2 m2 h2 e2 true).1
      = some (Signature.hmacSig m2 st.lastSignature h2 e2) := by
  refine ⟨logEntry_false st m h e, ?_⟩
  simp [logEntry_false, logEntry_true, signEntry]

/-! ## C9 -/

/-- **C9.** `is_operation_authorized(operation_level, agent_level)` is
true exactly when the agent level is at or above the operation level in
the declared six-level hierarchy (position in `levelList`), i.e. the
authorization check is the monotone total-order comparison. -/
theorem is_operation_authorized_monotone :
    ∀ a b : AuthorityLevel,
      is_operation_authorized a b = true ↔ levelIndex a ≤ levelIndex b := by
  decide

/-! ## C4 -/

/-- C4 counterexample: as coded, `get_byzantine_quorum_size` at
`SYSTEM_EXEC` with the source default `fault_tolerance = 1` (no caller
in the repository passes anything else) returns 4, not the claimed 7. -/
theorem quorum_system_exec_default_ne_seven :
    get_byzantine_quorum_size .SYSTEM_EXEC 1 = 4 ∧
    ¬ get_byzantine_quorum_size .SYSTEM_EXEC 1 = 7 := by
  decide

/-- **C4 (amended).** The quorum formula returns 0 for every level below
`FILE_WRITE` (for any fault tolerance) and `3 f + 1` at `FILE_WRITE` and
`SYSTEM_EXEC`; hence 4 at both tiers with the default `f = 1`, and 7 at
`SYSTEM_EXEC` only when called with `f = 2`. The fixed (0, 4, 7) triple
of the claim does hold for the `consensus_required` field of
`get_authority_requirements`. -/
theorem quorum_formula_and_consensus_table :
    (∀ f : Nat,
      get_byzantine_quorum_size .READ_ONLY f = 0 ∧
      get_byzantine_quorum_size .SAFE_COMPUTE f = 0 ∧
      get_byzantine_quorum_size .INFO_RETRIEVAL f = 0 ∧
      get_byzantine_quorum_size .FILE_READ f = 0) ∧
    (∀ f : Nat,
      get_byzantine_quorum_size .FILE_WRITE f = 3 * f + 1 ∧
      get_byzantine_quorum_size .SYSTEM_EXEC f = 3 * f + 1) ∧
    get_byzantine_quorum_size .FILE_WRITE 1 = 4 ∧
    get_byzantine_quorum_size .SYSTEM_EXEC 1 = 4 ∧
    get_byzantine_quorum_size .SYSTEM_EXEC 2 = 7 ∧
    (get_authority_requirements .READ_ONLY).consensus_required = 0 ∧
    (get_authority_requirements .SAFE_COMPUTE).consensus_required = 0 ∧
    (get_authority_requirements .INFO_RETRIEVAL).consensus_required = 0 ∧
    (get_authority_requirements .FILE_READ).consensus_required = 0 ∧
    (get_authority_requirements .FILE_WRITE).consensus_required = 4 ∧
    (get_authority_requirements .SYSTEM_EXEC).consensus_required = 7 := by
  refine ⟨fun f => ⟨rfl, rfl, rfl, rfl⟩, fun f => ⟨rfl, rfl⟩,
    rfl, rfl, rfl, rfl, rfl, rfl, rfl, rfl, rfl⟩

/-! ## Security-gate lemmas and C6 -/

theorem gateResults_threat_eq_not_passed (g : GateFns) (req : List (String × String)) :
    ∀ kr ∈ gateResults g req, kr.2.threat_detected = !kr.2.passed := by
  intro kr hkr
  simp only [gateResults, List.mem_append] at hkr
  rcases hkr with ((((hkr | hkr) | hkr) | hkr) | hkr) | hkr
  · rcases hp : dictGet? req "prompt" with _ | t <;> rw [hp] at hkr <;> simp at hkr
    subst hkr
    simp [check_prompt]
  · rcases hp : dictGet? req "shell_command" with _ | c <;> rw [hp] at hkr <;> simp at hkr
    subst hkr
    simp [check_shell_command]
  · rcases hp : dictGet? req "operation" with _ | o <;> rw [hp] at hkr <;> simp at hkr
    subst hkr
    simp [check_sandbox_requirement]
  · simp only [List.mem_filterMap] at hkr
    obtain ⟨kv, _, hsome⟩ := hkr
    by_cases hpass : (check_credential_exposure g kv.2).passed
    · simp [hpass] at hsome
    · simp only [hpass, Bool.not_false, if_pos] at hsome
      obtain rfl := Option.some.inj hsome
      simp [check_credential_exposure]
  · rcases hp : dictGet? req "url" with _ | u <;> rw [hp] at hkr <;> simp at hkr
    subst hkr
    simp [check_network_access]
  · rcases hp : dictGet? req "file_path" with _ | p <;> rw [hp] at hkr <;> simp at hkr
    subst hkr
    simp [check_workspace_boundary]

theorem any_eq_not_all {α : Type} (l : List α) (f g : α → Bool)
    (h : ∀ x ∈ l, f x = !g x) : l.any f = !l.all g := by
  induction l with
  | nil => simp
  | cons a t ih =>
    have ha := h a (by simp)
    have ht := ih (fun x hx => h x (by simp [hx]))
    simp [ha, ht]

theorem run_all_gates_threat_not_passed (g : GateFns) (req : List (String × String)) :
    (run_all_gates g req).threat_detected = !(run_all_gates g req).overall_passed := by
  simp only [run_all_gates]
  exact any_eq_not_all (gateResults g req) _ _
    (fun kr hkr => gateResults_threat_eq_not_passed g req kr hkr)

/-- **C6 (amended).** For every scanner behaviour and every request,
`run_all_gates` returns `overall_passed` = conjunction of the produced
per-gate `passed` flags and `threat_detected` = disjunction of the
produced per-gate `threat_detected` flags; but every per-gate result it
produces has `threat_detected = not passed`, so `threat_detected` always
equals the negation of `overall_passed` — a request can never
overall-pass while being flagged. -/
theorem run_all_gates_aggregation (g : GateFns) (req : List (String × String)) :
    (run_all_gates g req).overall_passed
        = (run_all_gates g req).gate_results.all (fun kr => kr.2.passed) ∧
    (run_all_gates g req).threat_detected
        = (run_all_gates g req).gate_results.any (fun kr => kr.2.threat_detected) ∧
    (run_all_gates g req).threat_detected = !(run_all_gates g req).overall_passed :=
  ⟨rfl, rfl, run_all_gates_threat_not_passed g req⟩

/-- C6 counterexample: the existential part of the claim — some request with
`overall_passed = true` together with `threat_detected = true` — is
impossible for any scanner behaviour. -/
theorem no_request_passes_with_threat :
    ¬ ∃ (g : GateFns) (req : List (String × String)),
        (run_all_gates g req).overall_passed = true ∧
        (run_all_gates g req).threat_detected = true := by
  rintro ⟨g, req, hp, ht⟩
  have hne := run_all_gates_threat_not_passed g req
  rw [hp, ht] at hne
  simp at hne

/-! ## Kernel lemmas and C3, C7, C8 -/

theorem processOperation_blocked_state (ap : Bool) (st : AuditLogState) (m : String) (h : Nat)
    (now cmd user apr : String) (op : Operation) (exec : ExecOutcome)
    (hblk : (processOperation ap st m h now cmd user apr op exec).1.status = "blocked") :
    (processOperation ap st m h now cmd user apr op exec).2 = st := by
  unfold processOperation at hblk ⊢
  cases hval : validate_operation defaultConstitution op with
  | primeDirectiveViolation msg => rfl
  | prohibitedOperationViolation msg => rfl
  | constitutionalViolation msg =>
    rw [hval] at hblk
  | ok =>
    rw [hval] at hblk
    simp only at hblk
    cases hap : (get_authority_requirements op.authority_level).approval_needed <;>
        rw [hap] at hblk
    · cases exec with
      | success out =>
        exact absurd hblk (by decide : ¬ ("success" : String) = "blocked")
      | failureErr out err =>
        exact absurd hblk (by decide : ¬ ("error" : String) = "blocked")
    · exact absurd hblk (by decide : ¬ ("pending_approval" : String) = "blocked")

/-- C3 counterexample: the command `run format disk` parses to a
`shell_exec` operation whose text triggers the Prime-Directive keyword
scan; the kernel (no gate coordinator, audit logger attached) returns
`blocked` while the audit store is still empty — no `pending` entry was
appended before the blocked verdict. -/
theorem blocked_without_audit_append :
    (processCommand false true freshAuditLog "machine" 7 "ts" "run format disk"
        "Randall" "op1" "apr1" (.success "ok")).1.status = "blocked" ∧
    (processCommand false true freshAuditLog "machine" 7 "ts" "run format disk"
        "Randall" "op1" "apr1" (.success "ok")).2.rows = [] := by
  decide

/-- **C3 (amended).** Whenever `process_command` returns status
`blocked`, the audit state is exactly as it was before the call: the
`pending` audit entry is appended only after the security-gate step and
the constitutional validation have both passed, so a blocked operation
leaves NO audit trace. -/
theorem blocked_leaves_audit_unchanged (gp ap : Bool) (st : AuditLogState)
    (m : String) (h : Nat) (now cmd user opId apr : String) (exec : ExecOutcome)
    (hblk : (processCommand gp ap st m h now cmd user opId apr exec).1.status = "blocked") :
    (processCommand gp ap st m h now cmd user opId apr exec).2 = st := by
  cases gp with
  | true =>
    simp only [processCommand, if_true] at hblk
    exact absurd hblk (by decide : ¬ ("error" : String) = "blocked")
  | false =>
    have hblk2 : (processOperation ap st m h now cmd user apr
        (parse_command cmd user opId) exec).1.status = "blocked" := by
      simpa [processCommand] using hblk
    simpa [processCommand] using
      processOperation_blocked_state ap st m h now cmd user apr
        (parse_command cmd user opId) exec hblk2

/-- Witness for C3 amended theorem at a concrete blocked command. -/
theorem blocked_leaves_audit_unchanged_witness :
    (processCommand false true freshAuditLog "m" 0 "t" "execute format c"
        "u" "op2" "apr2" (.success "ok")).1.status = "blocked" ∧
    (processCommand false true freshAuditLog "m" 0 "t" "execute format c"
        "u" "op2" "apr2" (.success "ok")).2 = freshAuditLog :=
  ⟨by decide,
   blocked_leaves_audit_unchanged false true freshAuditLog "m" 0 "t" "execute format c"
     "u" "op2" "apr2" (.success "ok") (by decide)⟩

/-- C7 counterexample: for the `shell_exec` / `format disk` /
`SYSTEM_EXEC` operation the kernel does return `blocked`, but NO audit
entry is appended at all (from an empty store the store stays empty), so
the final conjunct of the claim — "the audit entry recording the
constitutional reason" — is false at this input. -/
theorem format_disk_blocked_without_audit_entry :
    (processOperation true freshAuditLog "machine" 3 "ts" "cmd" "Randall" "apr"
        op7 (.success "ok")).1.status = "blocked" ∧
    (processOperation true freshAuditLog "machine" 3 "ts" "cmd" "Randall" "apr"
        op7 (.success "ok")).2.rows = [] := by
  decide

/-- **C7 (amended).** For the operation with skill `shell_exec`,
description `format disk` and level `SYSTEM_EXEC`: the Prime-Directive
keyword scan matches `format`, `validate_operation` raises
`PrimeDirectiveViolation`, and the kernel returns `blocked` with the
constitutional reason in the `error` field of the result — but it appends no
audit entry (the pending append sits after validation), leaving the
audit state untouched. -/
theorem format_disk_prime_directive_blocked (st : AuditLogState) (m : String) (h : Nat)
    (now cmd user apr : String) (exec : ExecOutcome) :
    strContains (lowerStr (operationText op7)) "format" = true ∧
    violates_prime_directive op7 = true ∧
    validate_operation defaultConstitution op7 =
      .primeDirectiveViolation
        ("Operation op7 violates Prime Directive: " ++ PRIME_DIRECTIVE) ∧
    (processOperation true st m h now cmd user apr op7 exec).1.status = "blocked" ∧
    (processOperation true st m h now cmd user apr op7 exec).1.error =
      some ("Operation op7 violates Prime Directive: " ++ PRIME_DIRECTIVE) ∧
    (processOperation true st m h now cmd user apr op7 exec).2 = st := by
  have hval : validate_operation defaultConstitution op7 =
      .primeDirectiveViolation
        ("Operation op7 violates Prime Directive: " ++ PRIME_DIRECTIVE) := by decide
  refine ⟨by decide, by decide, hval, ?_, ?_, ?_⟩ <;>
    (unfold processOperation; rw [hval])

/-- **C8.** For the `file_write` operation at `FILE_WRITE` with params
`path=/workspace/app.py`, `content=print(1)` (no approval collected,
audit logger attached): the kernel returns `pending_approval` with an
approval id and `authority_required = FILE_WRITE` — the level whose
computed requirements carry quorum size 4 — and exactly one audit entry
with result `pending` is appended to the store. (The actor level is not
consulted by `process_command`.) -/
theorem file_write_pending_approval_scenario (st : AuditLogState) (m : String) (h : Nat)
    (now cmd user apr : String) (exec : ExecOutcome) :
    (processOperation true st m h now cmd user apr op8 exec).1 =
      { status := "pending_approval"
        output := "Operation requires approval at A4: FILE_WRITE"
        operation_id := "op8"
        authority_required := .FILE_WRITE
        requires_approval := true
        approval_id := some apr
        error := none } ∧
    (get_authority_requirements .FILE_WRITE).approval_needed = true ∧
    (get_authority_requirements .FILE_WRITE).consensus_required = 4 ∧
    (processOperation true st m h now cmd user apr op8 exec).2.rows =
      st.rows ++ [⟨pendingEntry8 now cmd user,
        signEntry m st.lastSignature h (pendingEntry8 now cmd user)⟩] ∧
    (pendingEntry8 now cmd user).result = "pending" := by
  have hval : validate_operation defaultConstitution op8 = .ok := by decide
  refine ⟨?_, rfl, rfl, ?_, rfl⟩ <;>
    · unfold processOperation
      rw [hval]
      simp [ImmutableAuditLog.log, logEntry_true, pendingEntry8, op8, orDefault,
        signEntry, firstUnderscoreToken, AuthorityLevel.pyStr, AuthorityLevel.nameDisplay,
        get_authority_requirements]

/-! ## Incident-tracker lemmas and C5 -/

theorem two_strike_same_type (t n1 n2 d1 d2 id1 id2 : String) :
    (recordIncident (recordIncident freshTracker n1 id1 t d1) n2 id2 t d2).two_strike_triggered
      = true := by
  simp [recordIncident, IncidentTracker.record, freshTracker, countsGet, countsSet]

theorem two_strike_diff_types (t u n1 n2 d1 d2 id1 id2 : String) (hne : ¬ (t = u)) :
    (recordIncident (recordIncident freshTracker n1 id1 t d1) n2 id2 u d2).two_strike_triggered
      = false := by
  simp [recordIncident, IncidentTracker.record, freshTracker, countsGet, countsSet, hne]

theorem trip_state (t n1 n2 d1 d2 id1 id2 : String) :
    recordIncident (recordIncident freshTracker n1 id1 t d1) n2 id2 t d2 =
      { log := [openEntry n1 id1 t d1, openEntry n2 id2 t d2]
        session_counts := [(t, 2)]
        two_strike_triggered := true } := by
  simp [recordIncident, IncidentTracker.record, freshTracker, countsGet, countsSet, openEntry]

theorem foldRecord_aux (t u nowu du : String) (hne : ¬ (t = u)) :
    ∀ (vs : List String) (lg : List IncidentEntry) (j : Nat),
      vs.foldl (fun s id => recordIncident s nowu id u du)
        { log := lg, session_counts := [(t, 2), (u, j)], two_strike_triggered := true } =
      { log := lg ++ vs.map (fun id => openEntry nowu id u du)
        session_counts := [(t, 2), (u, j + vs.length)]
        two_strike_triggered := true } := by
  intro vs
  induction vs with
  | nil => intro lg j; simp
  | cons v vs ih =>
    intro lg j
    rw [List.foldl_cons]
    have hstep :
        recordIncident
          { log := lg, session_counts := [(t, 2), (u, j)], two_strike_triggered := true }
          nowu v u du =
        { log := lg ++ [openEntry nowu v u du]
          session_counts := [(t, 2), (u, j + 1)]
          two_strike_triggered := true } := by
      simp [recordIncident, IncidentTracker.record, countsGet, countsSet, openEntry, hne]
    rw [hstep, ih]
    simp [List.append_assoc]
    omega

theorem filter_open_u_entries (t u nowu du : String) (hne2 : ¬ (u = t)) (vs : List String) :
    (vs.map (fun id => openEntry nowu id u du)).filter
        (fun e => decide (e.incident.incident_type = t)
          && decide (e.incident.status ≠ "resolved")) = [] := by
  induction vs with
  | nil => rfl
  | cons v vs ih => simp [List.filter_cons, openEntry, hne2, ih]

theorem two_strike_resolve_clears_iff (t u n1 n2 n3 n4 nowu d1 d2 du id1 id2 : String)
    (us : List String) (hne : ¬ (t = u)) (hid : ¬ (id1 = id2)) :
    (resolveIncident (resolveIncident
        (us.foldl (fun s id => recordIncident s nowu id u du)
          (recordIncident (recordIncident freshTracker n1 id1 t d1) n2 id2 t d2))
        n3 id1) n4 id2).two_strike_triggered = decide (2 ≤ us.length) := by
  have hne2 : ¬ (u = t) := fun hh => hne hh.symm
  rw [trip_state]
  cases us with
  | nil =>
    simp only [List.foldl_nil]
    simp [resolveIncident, IncidentTracker.resolve, resolveInLog, openEntry,
      countsSet, hid]
  | cons v vs =>
    have hstep1 :
        recordIncident
          { log := [openEntry n1 id1 t d1, openEntry n2 id2 t d2]
            session_counts := [(t, 2)]
            two_strike_triggered := true }
          nowu v u du =
        { log := [openEntry n1 id1 t d1, openEntry n2 id2 t d2] ++ [openEntry nowu v u du]
          session_counts := [(t, 2), (u, 1)]
          two_strike_triggered := true } := by
      simp [recordIncident, IncidentTracker.record, countsGet, countsSet, openEntry, hne]
    rw [List.foldl_cons, hstep1, foldRecord_aux t u nowu du hne vs _ 1]
    simp [resolveIncident, IncidentTracker.resolve, resolveInLog, openEntry,
      countsSet, hid, hne2, filter_open_u_entries t u nowu du hne2]
    omega

/-- **C5.** The two-strike protocol on a fresh tracker:
(a) recording the same incident type twice sets `two_strike_triggered`;
(b) recording two different types once each leaves it false;
(c) after a trip of type `t`, resolving both open `t` incidents clears
the flag exactly when no other type is at or above 2 — recording the
other type `u` exactly `k` times leaves the flag equal to `2 ≤ k`. -/
theorem two_strike_protocol_properties :
    (∀ t n1 n2 d1 d2 id1 id2 : String,
      (recordIncident (recordIncident freshTracker n1 id1 t d1) n2 id2 t d2).two_strike_triggered
        = true) ∧
    (∀ t u n1 n2 d1 d2 id1 id2 : String, ¬ (t = u) →
      (recordIncident (recordIncident freshTracker n1 id1 t d1) n2 id2 u d2).two_strike_triggered
        = false) ∧
    (∀ t u n1 n2 n3 n4 nowu d1 d2 du id1 id2 : String, ∀ us : List String,
      ¬ (t = u) → ¬ (id1 = id2) →
      (resolveIncident (resolveIncident
          (us.foldl (fun s id => recordIncident s nowu id u du)
            (recordIncident (recordIncident freshTracker n1 id1 t d1) n2 id2 t d2))
          n3 id1) n4 id2).two_strike_triggered = decide (2 ≤ us.length)) :=
  ⟨fun t n1 n2 d1 d2 id1 id2 => two_strike_same_type t n1 n2 d1 d2 id1 id2,
   fun t u n1 n2 d1 d2 id1 id2 hne => two_strike_diff_types t u n1 n2 d1 d2 id1 id2 hne,
   fun t u n1 n2 n3 n4 nowu d1 d2 du id1 id2 us hne hid =>
     two_strike_resolve_clears_iff t u n1 n2 n3 n4 nowu d1 d2 du id1 id2 us hne hid⟩

/-- Witness for C5 at concrete inputs: two `security_block` records trip
the flag; `security_block` then `agent_error` does not; after a
`security_block` trip plus two `agent_error` records, resolving both
`security_block` incidents leaves the flag set (the other type is at 2). -/
theorem two_strike_protocol_properties_witness :
    (recordIncident (recordIncident freshTracker "n1" "i1" "security_block" "d1")
        "n2" "i2" "security_block" "d2").two_strike_triggered = true ∧
    (recordIncident (recordIncident freshTracker "n1" "i1" "security_block" "d1")
        "n2" "i2" "agent_error" "d2").two_strike_triggered = false ∧
    (resolveIncident (resolveIncident
        (["u1", "u2"].foldl (fun s id => recordIncident s "n0" id "agent_error" "du")
          (recordIncident (recordIncident freshTracker "n1" "i1" "security_block" "d1")
            "n2" "i2" "security_block" "d2"))
        "n3" "i1") "n4" "i2").two_strike_triggered = true :=
  ⟨two_strike_protocol_properties.1 "security_block" "n1" "n2" "d1" "d2" "i1" "i2",
   two_strike_protocol_properties.2.1 "security_block" "agent_error"
     "n1" "n2" "d1" "d2" "i1" "i2" (by decide),
   by
    have hc := two_strike_protocol_properties.2.2 "security_block" "agent_error"
      "n1" "n2" "n3" "n4" "n0" "d1" "d2" "du" "i1" "i2" ["u1", "u2"] (by decide) (by decide)
    simpa using hc⟩

end Ora
